import Mathlib

/-!
Verification development for the QueryGPT natural-language-to-SQL pipeline
(backend/app/main.py, database/setup_database.py).

The Python code is shallowly embedded: every pure helper becomes a total
Lean function on character lists (Python `str` values are modelled as
`List Char`, wrapped into `String` at the interface), the two external
collaborators (the Ollama completion service and the SQLite engine) become
oracle parameters, and the database side effects of the Execution Guard are
recorded as an explicit event trace.

String-handling notes:
* Python `str.strip()` removes the six ASCII whitespace characters; `pyStrip`
  mirrors that set.
* Python `str.upper()` is modelled on ASCII (identity on other characters),
  which is faithful for every statement the pipeline manipulates.
* Regular-expression substitutions (`re.sub`) are modelled as left-to-right
  scans replacing leftmost non-overlapping matches, exactly as the `re`
  module behaves on these patterns.
-/

/-- The single-quote character, written by code point to keep source text plain. -/
def sqc : Char := Char.ofNat 39

/-- The single-quote character as a one-character string. -/
def sqs : String := String.mk [sqc]

/-- Python `str.strip()` whitespace set: space, tab, newline, carriage return,
vertical tab, form feed. -/
def isPyWs (c : Char) : Bool :=
  c = ' ' || c = '\t' || c = '\n' || c = '\r' || c = Char.ofNat 11 || c = Char.ofNat 12

/-- Python `str.strip()` on a character list. -/
def pyStrip (cs : List Char) : List Char :=
  ((cs.dropWhile isPyWs).reverse.dropWhile isPyWs).reverse

/-- Python `str.strip()` on a string. -/
def pyStripS (s : String) : String := String.mk (pyStrip s.data)

/-- Python `str.upper()` on ASCII characters (identity elsewhere). -/
def pyUpper (c : Char) : Char :=
  if 'a' ≤ c ∧ c ≤ 'z' then Char.ofNat (c.toNat - 32) else c

/-- Python `text.split(chr(10))`: split on newline characters, keeping empty
pieces, one piece even for the empty string. -/
def splitOnNl : List Char → List (List Char)
  | [] => [[]]
  | c :: rest =>
    if c = '\n' then [] :: splitOnNl rest
    else
      let r := splitOnNl rest
      (c :: r.headI) :: r.tail

/-- Python `" ".join(lines)`. -/
def joinSpace (ls : List (List Char)) : List Char := List.intercalate [' '] ls

/-- The backtick character. -/
def btk : Char := Char.ofNat 96

/-- True when the list starts with three backticks (a code-fence delimiter). -/
def isFenceAt : List Char → Bool
  | a :: b :: c :: _ => a = btk && b = btk && c = btk
  | _ => false

/-- Leftmost occurrence of a triple backtick: returns the text before it and
the text after it, or `none` when absent.  This is the search step of the
substitution for the pattern matching a whole fenced block in
`_extract_sql_query` line 130. -/
def findTriple : List Char → Option (List Char × List Char)
  | [] => none
  | a :: rest =>
    if isFenceAt (a :: rest) then some ([], rest.drop 2)
    else
      match findTriple rest with
      | some (p, s) => some (a :: p, s)
      | none => none

/-- Python `group.replace(3 backticks, empty)`: delete leftmost
non-overlapping triple backticks, scanning left to right (fuelled; fuel is
always instantiated with the length of the list). -/
def replaceTripleF : Nat → List Char → List Char
  | 0, cs => cs
  | fuel + 1, cs =>
    match cs with
    | [] => []
    | a :: rest =>
      if isFenceAt (a :: rest) then replaceTripleF fuel (rest.drop 2)
      else a :: replaceTripleF fuel rest

/-- Python `group.replace(3 backticks, empty)` at adequate fuel. -/
def replaceTriple (cs : List Char) : List Char := replaceTripleF cs.length cs

/-- One pass of `re.sub` for the lazy fenced-block pattern: each match runs
from a triple backtick to the next triple backtick; the match is replaced by
its own text with the backtick runs deleted and then Python-stripped
(`lambda m: m.group(0).replace(...).strip()`, main.py line 130).  Fuelled;
the fuel is always instantiated with the length of the list. -/
def fenceLoop : Nat → List Char → List Char
  | 0, cs => cs
  | fuel + 1, cs =>
    match findTriple cs with
    | none => cs
    | some (pre, afterOpen) =>
      match findTriple afterOpen with
      | none => cs
      | some (inner, rest) =>
        pre ++ pyStrip (replaceTriple ([btk, btk, btk] ++ inner ++ [btk, btk, btk])) ++
          fenceLoop fuel rest

/-- The fenced-code-block substitution of `_extract_sql_query` (line 130). -/
def fenceSub (cs : List Char) : List Char := fenceLoop cs.length cs

/-- The five leading keywords recognised by `_extract_sql_query` (line 133). -/
def sqlKeywords : List (List Char) :=
  ["SELECT", "WITH", "INSERT", "UPDATE", "DELETE"].map String.data

/-- Python `any(line.upper().startswith(keyword) for keyword in sql_keywords)`
(line 143). -/
def isSqlStart (line : List Char) : Bool :=
  sqlKeywords.any (fun k => k.isPrefixOf (line.map pyUpper))

/-- The collection phase of the line scan (lines 146-151): once SQL has been
found, keep stripped lines, skipping single-line comments, until a blank
line ends the statement. -/
def collectLines : List (List Char) → List (List Char)
  | [] => []
  | l :: rest =>
    let line := pyStrip l
    if line = [] then []
    else if ['-', '-'].isPrefixOf line || ['#'].isPrefixOf line then collectLines rest
    else line :: collectLines rest

/-- The search phase of the line scan (lines 139-145): strip each line and
discard it until one starts (upper-cased) with a SQL keyword. -/
def scanLines : List (List Char) → List (List Char)
  | [] => []
  | l :: rest =>
    if isSqlStart (pyStrip l) then pyStrip l :: collectLines rest
    else scanLines rest

/-- Python `re.sub(semicolon-run-at-end, one-semicolon, s)` (line 156).  The
scanned text is a space-join of newline-split pieces, so it never contains a
newline and the end-of-string anchor means the literal end. -/
def collapseSemis (cs : List Char) : List Char :=
  if cs.reverse.head? = some ';' then (cs.reverse.dropWhile (· = ';')).reverse ++ [';']
  else cs

/-- Result of a successful pattern match at the current scan position: the
replacement text and the remainder of the input after the matched span. -/
structure MatchResult where
  repl : List Char
  rest : List Char

/-- Generic `re.sub`: scan left to right, replacing leftmost non-overlapping
matches; `prev` is the character just before the scan position (for the
word-boundary test), `none` at the start of the string.  Every pattern below
ends with a closing parenthesis, so after a match the previous character is
one.  Fuelled; fuel is always instantiated with the length of the list, which
suffices because every step consumes at least one character. -/
def gsub (try_ : Option Char → List Char → Option MatchResult) :
    Nat → Option Char → List Char → List Char
  | 0, _, cs => cs
  | fuel + 1, prev, cs =>
    match try_ prev cs with
    | some m => m.repl ++ gsub try_ fuel (some ')') m.rest
    | none =>
      match cs with
      | [] => []
      | c :: rest => c :: gsub try_ fuel (some c) rest

/-- Generic `re.search` as a Boolean: does the pattern match anywhere? -/
def ghas (try_ : Option Char → List Char → Option MatchResult) :
    Nat → Option Char → List Char → Bool
  | 0, _, _ => false
  | fuel + 1, prev, cs =>
    match try_ prev cs with
    | some _ => true
    | none =>
      match cs with
      | [] => false
      | c :: rest => ghas try_ fuel (some c) rest

/-- Word characters for the regex word-boundary `[A-Za-z0-9_]` (ASCII model
of the word class used before each date keyword). -/
def isWordChar (c : Char) : Bool :=
  ('a' ≤ c && c ≤ 'z') || ('A' ≤ c && c ≤ 'Z') || ('0' ≤ c && c ≤ '9') || c = '_'

/-- Word boundary before a keyword: holds at the start of the string or when
the preceding character is not a word character. -/
def boundaryOk : Option Char → Bool
  | none => true
  | some c => !isWordChar c

/-- Case-insensitive literal keyword match (`(?i)` on an upper-case keyword):
returns the remainder after the keyword. -/
def stripKwCI : List Char → List Char → Option (List Char)
  | [], cs => some cs
  | _ :: _, [] => none
  | k :: ks, c :: cs => if pyUpper c = k then stripKwCI ks cs else none

/-- Matcher for the argument-taking date patterns (`YEAR`, `MONTH`, `DAY`):
word boundary, keyword (case-insensitive), optional whitespace, an opening
parenthesis, then a lazy non-parenthesis group closed by the first closing
parenthesis.  The captured group is the Python-stripped text between the
parentheses; when that text is pure whitespace the lazy group with greedy
whitespace around it captures exactly the last whitespace character, and an
empty argument list fails to match (the group needs at least one character). -/
def tryArgMatch (kw : List Char) (mkRepl : List Char → List Char)
    (prev : Option Char) (cs : List Char) : Option MatchResult :=
  if boundaryOk prev then
    match stripKwCI kw cs with
    | none => none
    | some afterKw =>
      match afterKw.dropWhile isPyWs with
      | '(' :: afterParen =>
        let u := afterParen.takeWhile (· ≠ ')')
        match afterParen.dropWhile (· ≠ ')') with
        | ')' :: rest2 =>
          if u = [] then none
          else
            some ⟨mkRepl (if pyStrip u = [] then [u.getLastD ' '] else pyStrip u), rest2⟩
        | _ => none
      | _ => none
  else none

/-- Matcher for the nullary date patterns (`NOW`, `CURDATE`, `GETDATE`):
word boundary, keyword (case-insensitive), optional whitespace, an opening
parenthesis, optional whitespace, a closing parenthesis. -/
def tryNullMatch (kw repl : List Char) (prev : Option Char) (cs : List Char) :
    Option MatchResult :=
  if boundaryOk prev then
    match stripKwCI kw cs with
    | none => none
    | some afterKw =>
      match afterKw.dropWhile isPyWs with
      | '(' :: afterParen =>
        match afterParen.dropWhile isPyWs with
        | ')' :: rest2 => some ⟨repl, rest2⟩
        | _ => none
      | _ => none
  else none

/-- Replacement text `strftime(<q>%<letter><q>, <group>)` used for the
`YEAR`, `MONTH` and `DAY` rewrites (main.py lines 160-162). -/
def strftimeRepl (letter : Char) (g : List Char) : List Char :=
  "strftime(".data ++ [sqc, '%', letter, sqc, ',', ' '] ++ g ++ [')']

def tryYear : Option Char → List Char → Option MatchResult :=
  tryArgMatch "YEAR".data (strftimeRepl 'Y')

def tryMonth : Option Char → List Char → Option MatchResult :=
  tryArgMatch "MONTH".data (strftimeRepl 'm')

def tryDay : Option Char → List Char → Option MatchResult :=
  tryArgMatch "DAY".data (strftimeRepl 'd')

def tryNow : Option Char → List Char → Option MatchResult :=
  tryNullMatch "NOW".data "CURRENT_TIMESTAMP".data

def tryCurdate : Option Char → List Char → Option MatchResult :=
  tryNullMatch "CURDATE".data ("DATE(".data ++ [sqc] ++ "now".data ++ [sqc, ')'])

def tryGetdate : Option Char → List Char → Option MatchResult :=
  tryNullMatch "GETDATE".data "CURRENT_TIMESTAMP".data

/-- One whole-string substitution pass for one pattern. -/
def applySub (try_ : Option Char → List Char → Option MatchResult) (cs : List Char) :
    List Char :=
  gsub try_ cs.length none cs

/-- Whole-string search for one pattern. -/
def hasSub (try_ : Option Char → List Char → Option MatchResult) (cs : List Char) :
    Bool :=
  ghas try_ cs.length none cs

/-- The date-function normalization pass of `_extract_sql_query`
(lines 160-165), applied in source order: YEAR, MONTH, DAY, NOW, CURDATE,
GETDATE. -/
def normalizeDatesL (cs : List Char) : List Char :=
  applySub tryGetdate (applySub tryCurdate (applySub tryNow
    (applySub tryDay (applySub tryMonth (applySub tryYear cs)))))

/-- The date-function normalization pass on strings. -/
def normalizeDates (s : String) : String := String.mk (normalizeDatesL s.data)

/-- Does the text contain any occurrence of one of the six rewritable
date-function call patterns? -/
def hasAnyDatePattern (cs : List Char) : Bool :=
  hasSub tryYear cs || hasSub tryMonth cs || hasSub tryDay cs ||
    hasSub tryNow cs || hasSub tryCurdate cs || hasSub tryGetdate cs

/-- The tail of `_extract_sql_query` after fence preprocessing (lines
135-170): line scan, space-join, trailing-semicolon collapse, strip, date
normalization, and the permissive fallback to the preprocessed text when the
result is empty. -/
def extractCore (text : List Char) : List Char :=
  if normalizeDatesL (pyStrip (collapseSemis (joinSpace (scanLines (splitOnNl text))))) = []
  then text
  else normalizeDatesL (pyStrip (collapseSemis (joinSpace (scanLines (splitOnNl text)))))

/-- `_extract_sql_query` (main.py lines 126-170) on character lists.  Note
that the fallback returns the variable `text` as reassigned on line 130,
that is the stripped input with fenced blocks already replaced, not the raw
input. -/
def extractSqlQueryL (t : List Char) : List Char :=
  extractCore (fenceSub (pyStrip t))

/-- `_extract_sql_query` on strings. -/
def extractSqlQuery (s : String) : String := String.mk (extractSqlQueryL s.data)

/-- The value of the local variable `text` at line 130 of
`_extract_sql_query`: the stripped input with fenced blocks replaced by
their stripped inner content.  This is what the permissive fallback of line
168 returns. -/
def fallbackText (s : String) : String := String.mk (fenceSub (pyStrip s.data))

/-- A scalar cell value returned by SQLite. -/
inductive SqlValue where
  | intV : Int → SqlValue
  | textV : String → SqlValue
deriving DecidableEq

/-- A result row: column name to scalar value, in column order
(`dict(row)` over a `sqlite3.Row`). -/
def Row : Type := List (String × SqlValue)

instance : DecidableEq Row := inferInstanceAs (DecidableEq (List (String × SqlValue)))

deriving instance DecidableEq for Except

/-- Database events observable at the connection: opening the connection
(`sqlite3.connect`, line 174), sending one statement (`cursor.execute`,
line 190), closing (`conn.close()`, line 203). -/
inductive DBEvent where
  | openConn : DBEvent
  | execStmt : String → DBEvent
  | closeConn : DBEvent
deriving DecidableEq

/-- Errors surfaced by the backend: FastAPI `HTTPException(status, detail)`.
Its string form (Starlette) is `"<status>: <detail>"`. -/
inductive PyErr where
  | httpException : Nat → String → PyErr
deriving DecidableEq

/-- Python `str(e)` on an `HTTPException` (Starlette renders status and
detail). -/
def strOfPyErr : PyErr → String
  | PyErr.httpException status detail => toString status ++ ": " ++ detail

/-- The read-only check of `_execute_sql_query` (line 180):
`sql_query.strip().upper().startswith(keyword SELECT)` — a string-prefix
test, not a word test. -/
def isSelectCheck (sql : String) : Bool :=
  "SELECT".data.isPrefixOf ((pyStrip sql.data).map pyUpper)

/-- `sanitize_sql` (lines 182-187): strip, then keep only the text before
the first semicolon.  Splitting at the first semicolon is the same as taking
characters while they differ from it. -/
def sanitizeSqlL (cs : List Char) : List Char :=
  (pyStrip cs).takeWhile (· ≠ ';')

/-- `sanitize_sql` on strings. -/
def sanitizeSql (s : String) : String := String.mk (sanitizeSqlL s.data)

/-- `_execute_sql_query` (lines 172-203).  The database itself is the
external SQLite engine, passed as an oracle from statements to either rows
or a driver error message.  The connection is opened (line 174) before the
read-only check runs (line 180), so every trace starts with `openConn`; the
`finally` block closes it on every path.  A failed check raises
`ValueError`, which the `except` block (lines 198-200) converts to
`HTTPException(400, "SQL execution failed: " + str(e))`; a driver error is
converted the same way after the statement was already sent. -/
def executeSqlQuery (db : String → Except String (List Row)) (sql : String) :
    Except PyErr (List Row × Nat) × List DBEvent :=
  if isSelectCheck sql then
    match db (sanitizeSql sql) with
    | Except.ok rows =>
      (Except.ok (rows, rows.length),
       [DBEvent.openConn, DBEvent.execStmt (sanitizeSql sql), DBEvent.closeConn])
    | Except.error msg =>
      (Except.error (PyErr.httpException 400 ("SQL execution failed: " ++ msg)),
       [DBEvent.openConn, DBEvent.execStmt (sanitizeSql sql), DBEvent.closeConn])
  else
    (Except.error
       (PyErr.httpException 400 "SQL execution failed: Only SELECT queries are allowed"),
     [DBEvent.openConn, DBEvent.closeConn])

/-- The prompt template of `_generate_sql_with_ollama` (lines 83-98). -/
def buildPrompt (schemaInfo naturalQuery : String) : String :=
  "You are a SQL expert. Convert the following natural language query to SQL.\n\n"
    ++ schemaInfo
    ++ "\n\nBusiness Rules:\n- Use proper joins between tables\n"
    ++ "- Always include meaningful column aliases\n"
    ++ "- For revenue calculations, multiply quantity by unit_price\n"
    ++ "- Active customers have is_active = 1\n"
    ++ "- Completed orders have status = " ++ sqs ++ "completed" ++ sqs ++ "\n\n"
    ++ "Natural Language Query: " ++ naturalQuery
    ++ "\n\nGenerate only the SQL query, no explanations. The query should be valid SQLite syntax.\n\nSQL Query:"

/-- `_generate_sql_with_ollama` (lines 81-124): call the completion service
(an oracle from prompt text to generated text or a transport error) and
extract the SQL; a transport failure becomes `HTTPException(500, "Failed to
generate SQL query")`. -/
def generateSqlWithOllama (complete : String → Except String String)
    (schemaInfo naturalQuery : String) : Except PyErr String :=
  match complete (buildPrompt schemaInfo naturalQuery) with
  | Except.error _ => Except.error (PyErr.httpException 500 "Failed to generate SQL query")
  | Except.ok generated => Except.ok (extractSqlQuery generated)

/-- `_generate_explanation` (lines 205-212). -/
def generateExplanation (naturalQuery sqlQuery : String) (results : List Row) : String :=
  "I converted your question " ++ sqs ++ naturalQuery ++ sqs
    ++ " into the following SQL query:\n\n" ++ sqlQuery ++ "\n\n"
    ++ "This query returned " ++ toString results.length ++ " rows.\n"
    ++ (if results.isEmpty then ""
        else "It likely selects, filters, and aggregates data as per your question.\n")

/-- The response model `QueryResponse` (lines 30-35).  The `execution_time`
field is a wall-clock measurement taken from the environment and is not part
of the embedded state (the spec sets elapsed time aside for functional
claims). -/
structure QueryResponseM where
  sql_query : String
  results : List Row
  explanation : String
  row_count : Nat
deriving DecidableEq

/-- `process_query` of `QueryGPTEngine` (lines 214-241): generation,
execution, explanation; the blanket `except Exception` on line 239
catches every failure — including the `HTTPException` values already raised
with status 400 by `_execute_sql_query` — and re-raises
`HTTPException(500, str(e))`.  The second component is the trace of database
events produced during the request. -/
def processQuery (complete : String → Except String String)
    (db : String → Except String (List Row))
    (schemaInfo naturalQuery : String) :
    Except PyErr QueryResponseM × List DBEvent :=
  match generateSqlWithOllama complete schemaInfo naturalQuery with
  | Except.error e => (Except.error (PyErr.httpException 500 (strOfPyErr e)), [])
  | Except.ok sqlQuery =>
    match executeSqlQuery db sqlQuery with
    | (Except.error e, tr) => (Except.error (PyErr.httpException 500 (strOfPyErr e)), tr)
    | (Except.ok (results, rowCount), tr) =>
      (Except.ok
        { sql_query := sqlQuery
          results := results
          explanation := generateExplanation naturalQuery sqlQuery results
          row_count := rowCount }, tr)

/-- The request model `QueryRequest` (lines 26-28); `user_id` defaults to
"default" at the HTTP layer. -/
structure QueryRequest where
  query : String
  user_id : String
deriving DecidableEq

/-- The `/api/query` route handler (lines 246-249): it forwards only
`request.query` to the engine; `request.user_id` is never read. -/
def apiProcessQuery (complete : String → Except String String)
    (db : String → Except String (List Row))
    (schemaInfo : String) (req : QueryRequest) :
    Except PyErr QueryResponseM × List DBEvent :=
  processQuery complete db schemaInfo req.query

/-- One row of the `customers` table (database/setup_database.py lines
13-24): id, first name, last name, email, registration date, country, city,
active flag. -/
structure Customer where
  customer_id : Nat
  first_name : String
  last_name : String
  email : String
  registration_date : String
  country : String
  city : String
  is_active : Nat
deriving DecidableEq

/-- The five seed customers inserted by `populate_sample_data`
(setup_database.py lines 73-83). -/
def customersData : List Customer :=
  [⟨1, "John", "Smith", "john.smith@email.com", "2023-01-15", "USA", "New York", 1⟩,
   ⟨2, "Sarah", "Johnson", "sarah.j@email.com", "2023-02-20", "USA", "Los Angeles", 1⟩,
   ⟨3, "Mike", "Brown", "mike.brown@email.com", "2023-03-10", "Canada", "Toronto", 1⟩,
   ⟨4, "Emma", "Davis", "emma.davis@email.com", "2023-04-05", "UK", "London", 0⟩,
   ⟨5, "David", "Wilson", "david.w@email.com", "2023-05-12", "Australia", "Sydney", 1⟩]

/-- The seed customer with id 1 (John Smith, USA). -/
def johnSmith : Customer :=
  ⟨1, "John", "Smith", "john.smith@email.com", "2023-01-15", "USA", "New York", 1⟩

/-- The seed customer with id 2 (Sarah Johnson, USA). -/
def sarahJohnson : Customer :=
  ⟨2, "Sarah", "Johnson", "sarah.j@email.com", "2023-02-20", "USA", "Los Angeles", 1⟩

/-- A customer row as returned through `sqlite3.Row` and `dict(row)`. -/
def Customer.toRow (c : Customer) : Row :=
  [("customer_id", SqlValue.intV c.customer_id),
   ("first_name", SqlValue.textV c.first_name),
   ("last_name", SqlValue.textV c.last_name),
   ("email", SqlValue.textV c.email),
   ("registration_date", SqlValue.textV c.registration_date),
   ("country", SqlValue.textV c.country),
   ("city", SqlValue.textV c.city),
   ("is_active", SqlValue.intV c.is_active)]

/-- Modelled from the spec: the SQLite engine is an external collaborator
(not code under src/), so its evaluation of the scenario-A statement is
modelled as relational selection over the seed rows — the customers whose
country column equals USA, in insertion order. -/
def usaCustomers : List Customer :=
  customersData.filter (fun c => c.country = "USA")

/-- The scenario-A statement selecting all customers from the USA. -/
def usaQuerySql : String :=
  "SELECT * FROM customers WHERE country = " ++ sqs ++ "USA" ++ sqs

/-- Modelled from the spec: the external SQLite engine, seeded by
`populate_sample_data`, answering the scenario-A statement with the selected
rows and rejecting anything else. -/
def sampleDb : String → Except String (List Row) := fun q =>
  if q = usaQuerySql then Except.ok (usaCustomers.map Customer.toRow)
  else Except.error ("near " ++ sqs ++ "syntax" ++ sqs ++ ": syntax error")

/-- A database oracle whose every statement fails with a driver error; used
to witness guard behaviour that must not depend on the database. -/
def dbUnavailable : String → Except String (List Row) := fun _ =>
  Except.error "unable to open database file"

/-- A completion-service oracle that always produces a destructive
statement. -/
def completeDrop : String → Except String String := fun _ =>
  Except.ok "DROP TABLE customers"

/-- Scenario-B completion text: prose, then a fenced sql block holding the
statement. -/
def scenarioBInput : String :=
  "Sure! Here" ++ sqs ++ "s the query:\n```sql\nSELECT * FROM customers;\n```\n"

/-- A fence-only input with no SQL-looking content. -/
def fenceOnlyInput : String := "```\nhello\n```"

/-- An already-clean fenced statement used to exercise idempotence. -/
def cleanFenced : String := "```sql\nSELECT * FROM customers;\n```"

/-- A nested date-function call: the argument of the outer rewritable call
is itself a rewritable call. -/
def nestedYear : String := "SELECT YEAR(YEAR(order_date)) FROM orders"

/-- Scenario-D statement with one non-portable date-part call. -/
def scenarioD : String := "SELECT YEAR(order_date) FROM orders"

/-- Scenario-C destructive candidate. -/
def scenarioC : String := "DELETE FROM customers; SELECT 1;"

/-- A read-only candidate followed by a destructive second statement. -/
def multiStmt : String := "SELECT * FROM customers; DROP TABLE customers;"

/-!
General lemmas about the embedded helpers, shared by the claim theorems
below.
-/

theorem string_mk_data (s : String) : String.mk s.data = s := rfl

theorem splitOnNl_of_no_nl (cs : List Char) (h : '\n' ∉ cs) : splitOnNl cs = [cs] := by
  induction cs with
  | nil => rfl
  | cons c rest ih =>
    simp only [List.mem_cons, not_or] at h
    simp only [splitOnNl, ih h.2]
    rw [if_neg (Ne.symm h.1)]
    simp

theorem joinSpace_singleton (x : List Char) : joinSpace [x] = x := by
  simp [joinSpace, List.intercalate]

theorem fenceLoop_of_no_triple (fuel : Nat) (cs : List Char) (h : findTriple cs = none) :
    fenceLoop fuel cs = cs := by
  cases fuel with
  | zero => rfl
  | succ n => simp [fenceLoop, h]

theorem fenceSub_of_no_triple (cs : List Char) (h : findTriple cs = none) :
    fenceSub cs = cs :=
  fenceLoop_of_no_triple cs.length cs h

theorem scanLines_of_no_sql (ls : List (List Char))
    (h : ls.all (fun l => !isSqlStart (pyStrip l)) = true) : scanLines ls = [] := by
  induction ls with
  | nil => rfl
  | cons l rest ih =>
    simp only [List.all_cons, Bool.and_eq_true, Bool.not_eq_true'] at h
    simp [scanLines, h.1, ih (by simpa using h.2)]

theorem gsub_of_ghas_false (try_ : Option Char → List Char → Option MatchResult) :
    ∀ (fuel : Nat) (prev : Option Char) (cs : List Char),
      ghas try_ fuel prev cs = false → gsub try_ fuel prev cs = cs := by
  intro fuel
  induction fuel with
  | zero => intro prev cs _; rfl
  | succ n ih =>
    intro prev cs h
    cases htry : try_ prev cs with
    | some m => simp [ghas, htry] at h
    | none =>
      cases cs with
      | nil => simp [gsub, htry]
      | cons c rest =>
        simp only [ghas, htry] at h
        simp only [gsub, htry]
        rw [ih (some c) rest h]

theorem normalizeDatesL_of_no_pattern (cs : List Char) (h : hasAnyDatePattern cs = false) :
    normalizeDatesL cs = cs := by
  simp only [hasAnyDatePattern, Bool.or_eq_false_iff, hasSub] at h
  obtain ⟨⟨⟨⟨⟨h1, h2⟩, h3⟩, h4⟩, h5⟩, h6⟩ := h
  simp only [normalizeDatesL, applySub]
  rw [gsub_of_ghas_false tryYear cs.length none cs h1,
      gsub_of_ghas_false tryMonth cs.length none cs h2,
      gsub_of_ghas_false tryDay cs.length none cs h3,
      gsub_of_ghas_false tryNow cs.length none cs h4,
      gsub_of_ghas_false tryCurdate cs.length none cs h5,
      gsub_of_ghas_false tryGetdate cs.length none cs h6]

theorem extractCore_fallback (text : List Char) (h : scanLines (splitOnNl text) = []) :
    extractCore text = text := by
  unfold extractCore
  rw [h]
  rfl

theorem exec_guard_reject (db : String → Except String (List Row)) (s : String)
    (hc : isSelectCheck s = false) :
    executeSqlQuery db s =
      (Except.error
         (PyErr.httpException 400 "SQL execution failed: Only SELECT queries are allowed"),
       [DBEvent.openConn, DBEvent.closeConn]) := by
  unfold executeSqlQuery
  rw [if_neg (by simp [hc])]

theorem exec_guard_trace (db : String → Except String (List Row)) (s : String)
    (hc : isSelectCheck s = true) :
    (executeSqlQuery db s).2 =
      [DBEvent.openConn, DBEvent.execStmt (sanitizeSql s), DBEvent.closeConn] := by
  unfold executeSqlQuery
  rw [if_pos hc]
  cases hdb : db (sanitizeSql s) <;> simp [hdb]

theorem semi_not_mem_sanitize (cs : List Char) : ';' ∉ sanitizeSqlL cs := by
  intro h
  have := List.mem_takeWhile_imp h
  simp at this

/-!
Claim theorems.
-/

/-- Claim C1 (counterexample to the claim as stated): for the destructive
candidate of scenario C the guard does reject with the policy error and
sends no statement, but the claim additionally asserts that no database
access happens and that the rejection precedes any touch of the connection;
in the code `sqlite3.connect` runs on line 174 before the check on line 180,
so the trace of the rejected call begins with the connection being opened. -/
theorem c1_counterexample :
    (executeSqlQuery dbUnavailable scenarioC).1 =
      Except.error
        (PyErr.httpException 400 "SQL execution failed: Only SELECT queries are allowed")
    ∧ (executeSqlQuery dbUnavailable scenarioC).2 ≠ []
    ∧ DBEvent.openConn ∈ (executeSqlQuery dbUnavailable scenarioC).2
    ∧ (executeSqlQuery dbUnavailable scenarioC).2.head? = some DBEvent.openConn := by
  decide

/-- Claim C1 (amended): for every candidate whose trimmed upper-cased text
does not start with SELECT, the guard fails with the policy error
(`HTTPException(400, ...Only SELECT queries are allowed)`) and no statement
is ever sent to the database; the rejection happens before any statement is
sent, but after the connection has been opened — the trace is exactly open
then close. -/
theorem c1_policy_rejection (db : String → Except String (List Row)) (s : String)
    (hc : isSelectCheck s = false) :
    (executeSqlQuery db s).1 =
      Except.error
        (PyErr.httpException 400 "SQL execution failed: Only SELECT queries are allowed")
    ∧ (executeSqlQuery db s).2 = [DBEvent.openConn, DBEvent.closeConn]
    ∧ ∀ q, DBEvent.execStmt q ∉ (executeSqlQuery db s).2 := by
  rw [exec_guard_reject db s hc]
  refine ⟨rfl, rfl, ?_⟩
  intro q hq
  simp at hq

/-- Witness for C1 at the concrete scenario-C candidate. -/
theorem c1_policy_rejection_witness :
    (executeSqlQuery dbUnavailable scenarioC).1 =
      Except.error
        (PyErr.httpException 400 "SQL execution failed: Only SELECT queries are allowed") :=
  (c1_policy_rejection dbUnavailable scenarioC (by decide)).1

/-- Claim C2 (code bug, evaluated): a request whose completion is the
destructive candidate is rejected by the guard with a caller-input
`HTTPException(400, ...)`, but `process_query`'s blanket
`except Exception` (line 239) catches that exception too and re-raises
`HTTPException(500, str(e))`, so the caller of the orchestrator receives a
generic server-side 500 whose detail is the stringified 400. -/
theorem c2_rewrapped_as_500 :
    (processQuery completeDrop dbUnavailable "" "drop the customers table").1 =
      Except.error
        (PyErr.httpException 500
          "400: SQL execution failed: Only SELECT queries are allowed") := by
  decide

/-- Claim C3 (counterexample): the seed data of `populate_sample_data` has
five customers, but two of them are from the USA — John Smith (id 1) and
Sarah Johnson (id 2) — so the USA selection has row count 2, not 1. -/
theorem c3_counterexample :
    customersData.length = 5
    ∧ usaCustomers.length = 2
    ∧ usaCustomers.length ≠ 1
    ∧ sarahJohnson ∈ usaCustomers
    ∧ sarahJohnson.customer_id = 2
    ∧ sarahJohnson.country = "USA" := by
  decide

/-- Claim C3 (amended): the sample dataset has 5 customers of which exactly
two are from the USA (John Smith id 1 and Sarah Johnson id 2), and running
the scenario-A statement through the Execution Guard against the seed data
yields exactly the USA rows with row count 2. -/
theorem c3_usa_rows :
    customersData.length = 5
    ∧ usaCustomers = [johnSmith, sarahJohnson]
    ∧ (executeSqlQuery sampleDb usaQuerySql).1 =
        Except.ok ([johnSmith.toRow, sarahJohnson.toRow], 2) := by
  decide

/-- Claim C4 (confirmed): for every candidate containing a semicolon, any
statement the guard sends to the database equals the text of the trimmed
candidate before its first semicolon (which contains no semicolon), so
everything after the first semicolon is discarded and never sent; and
whenever the read-only check passes, exactly that prefix is sent. -/
theorem c4_single_statement (db : String → Except String (List Row)) (s : String)
    (_hsemi : ';' ∈ s.data) :
    (∀ q, DBEvent.execStmt q ∈ (executeSqlQuery db s).2 →
        q = sanitizeSql s ∧ ';' ∉ q.data)
    ∧ (isSelectCheck s = true →
        DBEvent.execStmt (sanitizeSql s) ∈ (executeSqlQuery db s).2) := by
  constructor
  · intro q hq
    cases hc : isSelectCheck s with
    | false =>
      rw [exec_guard_reject db s hc] at hq
      simp at hq
    | true =>
      rw [exec_guard_trace db s hc] at hq
      simp at hq
      exact ⟨hq, hq ▸ semi_not_mem_sanitize s.data⟩
  · intro hc
    rw [exec_guard_trace db s hc]
    simp

/-- Witness for C4 at a concrete two-statement candidate. -/
theorem c4_single_statement_witness :
    DBEvent.execStmt (sanitizeSql multiStmt) ∈ (executeSqlQuery dbUnavailable multiStmt).2 :=
  (c4_single_statement dbUnavailable multiStmt (by decide)).2 (by decide)

/-- Claim C5 (confirmed): the scenario-B completion text extracts to exactly
the fenced statement. -/
theorem c5_scenario_b : extractSqlQuery scenarioBInput = "SELECT * FROM customers;" := by
  decide

/-- Claim C6 (counterexample to the claim as stated): on a fence-only input
with no SQL-looking line the extractor falls back to the variable `text`
reassigned on line 130 — the stripped input with fenced blocks replaced by
their stripped content — not to the original trimmed input: the fenced
input extracts to its inner word although its trimmed original still
carries the fence delimiters. -/
theorem c6_counterexample :
    ((splitOnNl (fenceSub (pyStrip fenceOnlyInput.data))).all
        (fun l => !isSqlStart (pyStrip l)) = true)
    ∧ extractSqlQuery fenceOnlyInput = "hello"
    ∧ pyStripS fenceOnlyInput = fenceOnlyInput
    ∧ extractSqlQuery fenceOnlyInput ≠ pyStripS fenceOnlyInput := by
  decide

/-- Claim C6 (amended): for every input in which no line — after trimming
and fence handling — starts with a SQL leading keyword, the extractor
returns the trimmed, fence-processed text unchanged (the original trimmed
text exactly when no fenced block occurs); and the extractor is a total
function, so it never raises on any input string. -/
theorem c6_permissive_fallback (t : String)
    (h : (splitOnNl (fenceSub (pyStrip t.data))).all
        (fun l => !isSqlStart (pyStrip l)) = true) :
    extractSqlQuery t = fallbackText t :=
  congrArg String.mk (extractCore_fallback _ (scanLines_of_no_sql _ h))

/-- Witness for C6 at a concrete keyword-free input. -/
theorem c6_permissive_fallback_witness :
    extractSqlQuery "no sql here at all" = fallbackText "no sql here at all" :=
  c6_permissive_fallback "no sql here at all" (by decide)

/-- Claim C7 (confirmed): extraction is idempotent on already-clean output.
The absence of further formatting artifacts in `extract t` is read as: no
fence delimiter, already stripped, single-line, no collapsible trailing
semicolon run, and no remaining rewritable date-function call; under those
conditions extracting a second time returns the same statement text. -/
theorem c7_extract_idempotent (t : String)
    (h1 : findTriple (extractSqlQuery t).data = none)
    (h2 : pyStrip (extractSqlQuery t).data = (extractSqlQuery t).data)
    (h3 : '\n' ∉ (extractSqlQuery t).data)
    (h4 : collapseSemis (extractSqlQuery t).data = (extractSqlQuery t).data)
    (h5 : hasAnyDatePattern (extractSqlQuery t).data = false) :
    extractSqlQuery (extractSqlQuery t) = extractSqlQuery t := by
  set o := extractSqlQuery t with ho
  suffices h : extractCore o.data = o.data by
    calc extractSqlQuery o
        = String.mk (extractCore (fenceSub (pyStrip o.data))) := rfl
      _ = String.mk (extractCore o.data) := by rw [h2, fenceSub_of_no_triple _ h1]
      _ = String.mk o.data := by rw [h]
      _ = o := string_mk_data o
  unfold extractCore
  rw [splitOnNl_of_no_nl _ h3]
  cases hs : isSqlStart o.data with
  | true =>
    have hscan : scanLines [o.data] = [o.data] := by
      simp [scanLines, h2, hs, collectLines]
    rw [hscan, joinSpace_singleton, h4, h2, normalizeDatesL_of_no_pattern _ h5, ite_self]
  | false =>
    have hscan : scanLines [o.data] = [] := by
      simp [scanLines, h2, hs]
    have hz : normalizeDatesL (pyStrip (collapseSemis (joinSpace ([] : List (List Char))))) =
        ([] : List Char) := by decide
    rw [hscan, hz]
    simp

/-- Witness for C7 at a concrete fenced clean statement. -/
theorem c7_extract_idempotent_witness :
    extractSqlQuery (extractSqlQuery cleanFenced) = extractSqlQuery cleanFenced :=
  c7_extract_idempotent cleanFenced (by decide) (by decide) (by decide) (by decide)
    (by decide)

/-- Claim C8 (counterexample to the claim as stated): the rewrite pass is
not stable on nested calls — the first pass rewrites the outer YEAR call
and leaves the inner one inside the already-converted argument, and the
second pass rewrites that inner call again, so twice differs from once. -/
theorem c8_counterexample :
    normalizeDates (normalizeDates nestedYear) ≠ normalizeDates nestedYear := by
  decide

/-- Claim C8 (amended): the date-function rewrite is stable on every
statement whose once-rewritten form contains no remaining rewritable call
pattern — already-converted calls are never rewritten again; stability only
fails when a rewritable call survives the first pass inside the argument of
another (nested calls). -/
theorem c8_rewrite_stable (s : String)
    (h : hasAnyDatePattern (normalizeDatesL s.data) = false) :
    normalizeDates (normalizeDates s) = normalizeDates s :=
  congrArg String.mk (normalizeDatesL_of_no_pattern (normalizeDatesL s.data) h)

/-- Witness for C8 at the concrete scenario-D statement. -/
theorem c8_rewrite_stable_witness :
    normalizeDates (normalizeDates scenarioD) = normalizeDates scenarioD :=
  c8_rewrite_stable scenarioD (by decide)

/-- Claim C9 (confirmed): the caller identifier has no effect — the route
handler forwards only the query text, so two requests with the same query
and any two user identifiers produce identical responses (SQL text, result
rows, explanation, row count) and identical database traces. -/
theorem c9_user_id_never_read (complete : String → Except String String)
    (db : String → Except String (List Row)) (schemaInfo q u1 u2 : String) :
    apiProcessQuery complete db schemaInfo ⟨q, u1⟩ =
      apiProcessQuery complete db schemaInfo ⟨q, u2⟩ := rfl

/-- Claim C10 (confirmed): the read-only check is the string-prefix test
`isSelectCheck`; every candidate passing it — including ones where SELECT
is not a complete word — proceeds to database execution: the trace shows
the sanitized statement being sent. -/
theorem c10_prefix_check_executes (db : String → Except String (List Row)) (s : String)
    (hc : isSelectCheck s = true) :
    (executeSqlQuery db s).2 =
      [DBEvent.openConn, DBEvent.execStmt (sanitizeSql s), DBEvent.closeConn] :=
  exec_guard_trace db s hc

/-- Witness for C10 at the concrete candidate beginning with SELECTION. -/
theorem c10_prefix_check_executes_witness :
    (executeSqlQuery dbUnavailable "SELECTION FROM x").2 =
      [DBEvent.openConn, DBEvent.execStmt "SELECTION FROM x", DBEvent.closeConn] :=
  c10_prefix_check_executes dbUnavailable "SELECTION FROM x" (by decide)
